import Mathlib

/-!
Verification of the pdfremediator repository's structure-tagging and
compliance-rule engine against its natural-language specification.

The Python sources are shallowly embedded: pure helpers become Lean
functions over `Nat`/`ℚ`/`String`, and the stateful structure-tree builder
of `pdf_remediator.py` becomes explicit state passing over a `PdfState`
record.  Python `float` division is modelled by exact rational division,
`int()` truncation of a non-negative value by the rational floor, and
Python string methods by explicit character-list functions mirroring their
semantics.
-/

namespace PdfRemediator

/-! ### Python string primitives

`pyStrip`, `pyLower`, `pyTitle` and `pyReplace` model `str.strip()`,
`str.lower()`, `str.title()` and `str.replace` on the ASCII strings this
code base manipulates. -/

/-- Whitespace characters removed by Python's `str.strip()`. -/
def pyIsSpace (c : Char) : Bool :=
  c = ' ' || c = '\t' || c = '\n' || c = '\x0d' || c = '\x0b' || c = '\x0c'

/-- Python `s.strip()`: drop leading and trailing whitespace. -/
def pyStrip (s : String) : String :=
  ⟨((s.data.dropWhile pyIsSpace).reverse.dropWhile pyIsSpace).reverse⟩

/-- Python `s.lower()` (ASCII). -/
def pyLower (s : String) : String :=
  ⟨s.data.map Char.toLower⟩

/-- Python `s.replace(old, new)` for single characters. -/
def pyReplaceChar (old new : Char) (s : String) : String :=
  ⟨s.data.map (fun c => if c = old then new else c)⟩

/-- One step of Python `s.title()` on a character list: uppercase a letter
that follows a non-letter, lowercase a letter that follows a letter. -/
def pyTitleGo : Bool → List Char → List Char
  | _, [] => []
  | prevAlpha, c :: cs =>
    if c.isAlpha then
      (if prevAlpha then c.toLower else c.toUpper) :: pyTitleGo true cs
    else
      c :: pyTitleGo false cs

/-- Python `s.title()` (ASCII letters). -/
def pyTitle (s : String) : String :=
  ⟨pyTitleGo false s.data⟩

/-- Python `s.startswith(p)`. -/
def pyStartsWith (s p : String) : Bool :=
  s.data.take p.data.length == p.data

/-! ### Decorative classifier (`ImageInfo.determine_if_decorative`)

`pdf_remediator.py` lines 64-82.  The aspect ratio is
`width / height if height > 0 else 0`, computed in exact rationals here
(Python uses floats; all thresholds are far from representation error on
integer inputs of this size). -/

/-- `self.width / self.height if self.height > 0 else 0`. -/
def aspect_ratio_of (width height : Nat) : ℚ :=
  if height > 0 then (width : ℚ) / (height : ℚ) else 0

/-- `ImageInfo.determine_if_decorative`, with the source's check order:
tiny dimension, then extreme aspect ratio, then tiny area. -/
def determine_if_decorative (width height : Nat) : Bool :=
  if width < 20 ∨ height < 20 then
    true
  else if aspect_ratio_of width height > 20 ∨ aspect_ratio_of width height < 1/20 then
    true
  else if width * height < 400 then
    true
  else
    false

/-! ### Alt-text generation and validation (`pdf_remediator.py` 378-441) -/

/-- `EnhancedPDFRemediator._generate_alt_text`: placeholder text chosen from
the image's aspect ratio and size.  Here the ratio defaults to 1 when the
height is zero, as in the source. -/
def generate_alt_text (width height page_num : Nat) : String :=
  let ar : ℚ := if height > 0 then (width : ℚ) / (height : ℚ) else 1
  if ar > 2 then
    "Horizontal diagram or illustration (page " ++ toString page_num ++
      "). Review and update with actual content description."
  else if ar < 1/2 then
    "Vertical graphic (page " ++ toString page_num ++
      "). Review and update with actual content description."
  else if width > 400 && height > 400 then
    "Figure or photograph (page " ++ toString page_num ++
      "). Review and update with description of what image depicts."
  else
    "Graphic element (page " ++ toString page_num ++
      "). Review and update with actual content or purpose."

/-- The generic phrases rejected by the alt-text validator. -/
def generic_alt_phrases : List String :=
  ["image", "picture", "photo", "graphic", "icon", "logo", "diagram",
   "illustration", "figure", "chart", "graph", "screenshot", "placeholder"]

/-- `EnhancedPDFRemediator._validate_alt_text_for_content`.  The source takes
an `element_type` parameter (default `"image"`) but never reads it; the
embedding keeps the parameter to make that checkable. -/
def validate_alt_text_for_content (alt_text : String) (element_type : String) : Bool :=
  let _ := element_type
  if alt_text = "" ∨ pyStrip alt_text = "" then
    false
  else
    let alt_lower := pyStrip (pyLower alt_text)
    if generic_alt_phrases.contains alt_lower then
      false
    else if (pyStartsWith alt_lower "image of" || pyStartsWith alt_lower "picture of" ||
             pyStartsWith alt_lower "photo of" || pyStartsWith alt_lower "graphic of") &&
            alt_lower.data.length < 20 then
      false
    else if (pyStrip alt_text).data.length < 10 then
      false
    else
      true

/-! ### Theorems about the decorative classifier and the alt-text validator -/

/-- The guarded aspect ratio agrees with plain rational division (Lean's
division by zero is zero, matching the source's `else 0` guard). -/
theorem aspect_ratio_of_eq_div (w h : ℕ) : aspect_ratio_of w h = (w : ℚ) / (h : ℚ) := by
  unfold aspect_ratio_of
  split_ifs with hh
  · rfl
  · have h0 : h = 0 := by omega
    simp [h0]

/-- C3: the decorative classifier is the pure function of `(width, height)`
that answers `decorative` exactly on the stated threshold disjunction, and
`(10,10)`, `(1000,10)` are decorative while `(500,500)` is descriptive. -/
theorem decorative_classifier_characterization :
    (∀ w h : ℕ, determine_if_decorative w h = true ↔
      (w < 20 ∨ h < 20 ∨ w * h < 400 ∨
        (w : ℚ) / (h : ℚ) > 20 ∨ (w : ℚ) / (h : ℚ) < 1/20)) ∧
    determine_if_decorative 10 10 = true ∧
    determine_if_decorative 1000 10 = true ∧
    determine_if_decorative 500 500 = false := by
  refine ⟨fun w h => ?_, by decide, by decide,
    by norm_num [determine_if_decorative, aspect_ratio_of]⟩
  rw [determine_if_decorative, aspect_ratio_of_eq_div]
  split_ifs with h1 h2 h3
  · exact iff_of_true rfl (by tauto)
  · exact iff_of_true rfl (by tauto)
  · exact iff_of_true rfl (by tauto)
  · refine iff_of_false (by simp) ?_
    push_neg at h1 h2 ⊢
    exact ⟨h1.1, h1.2, by omega, h2.1, h2.2⟩

/-- C2 counterexample: the validator rejects the empty string even for the
decorative role `Artifact` — the claimed `validate("", Artifact) = accept`
is false on the code, which never reads its role argument. -/
theorem validate_empty_artifact_rejected :
    validate_alt_text_for_content "" "Artifact" = false := by decide

/-- C2 (amended): the validator's verdict is independent of the role
argument; empty or whitespace-only text is rejected for every role,
including `Artifact`; the spec's remaining examples hold role-blind. -/
theorem validator_role_blind :
    (∀ t r₁ r₂ : String,
      validate_alt_text_for_content t r₁ = validate_alt_text_for_content t r₂) ∧
    (∀ t r : String, pyStrip t = "" → validate_alt_text_for_content t r = false) ∧
    validate_alt_text_for_content "image" "Figure" = false ∧
    validate_alt_text_for_content "Quarterly revenue chart showing 25% growth" "Figure" = true := by
  refine ⟨fun t r₁ r₂ => rfl, fun t r h => ?_, by decide, by decide⟩
  simp [validate_alt_text_for_content, h]

/-! ### Compliance score (`accessibility_checker.py`, `generate_report`)

`total_checks = len(issues) + len(warnings) + len(passed_checks)` and
`compliance_score = int((passed_count / total_checks) * 100)` when
`total_checks > 0`, else `0`.  Python's float division is modelled by exact
rational division and `int()` on the non-negative result by the floor. -/

/-- The report's compliance score as a function of the three check counts. -/
def compliance_score (passed issues warnings : Nat) : Nat :=
  let total_checks := issues + warnings + passed
  if total_checks > 0 then
    (⌊((passed : ℚ) / (total_checks : ℚ)) * 100⌋).toNat
  else 0

/-- `generate_summary`'s tier: pass / near_pass / needs_work / fail. -/
def report_status (passes_wcag : Bool) (score : Nat) : String :=
  if passes_wcag then "pass"
  else if score ≥ 80 then "near_pass"
  else if score ≥ 50 then "needs_work"
  else "fail"

/-- The score is the truncated (floored) percentage, shared by the C4
theorems. -/
theorem compliance_score_eq_natDiv (p i w : Nat) (h : 0 < i + w + p) :
    compliance_score p i w = 100 * p / (i + w + p) := by
  unfold compliance_score
  rw [if_pos h]
  have hq : ((p : ℚ) / ((i + w + p : ℕ) : ℚ)) * 100 =
      ((100 * p : ℕ) : ℚ) / ((i + w + p : ℕ) : ℚ) := by
    push_cast
    ring
  rw [hq, Rat.floor_natCast_div_natCast, ← Int.natCast_div, Int.toNat_natCast]

/-- C4 counterexample: with 2 passed checks, 1 issue and 0 warnings the code
reports score 66 (truncation), while the claimed round-to-nearest formula
gives 67. -/
theorem compliance_score_not_round_at_2_1_0 :
    compliance_score 2 1 0 = 66 ∧ round ((100 * (2 : ℚ)) / (2 + 1 + 0 : ℚ)) = 67 := by
  constructor
  · rw [compliance_score_eq_natDiv 2 1 0 (by decide)]
  · rw [round_eq]
    have hq : (100 * (2 : ℚ)) / (2 + 1 + 0 : ℚ) + 1 / 2 = ((403 : ℕ) : ℚ) / ((6 : ℕ) : ℚ) := by
      norm_num
    rw [hq, Rat.floor_natCast_div_natCast]
    decide

/-- C4 (amended): for counts not all zero the compliance score is
`⌊100·passed/(passed+issues+warnings)⌋` — integer truncation, not rounding
to the nearest integer; at passed=8, issues=2, warnings=0 it is still 80. -/
theorem compliance_score_is_truncation (p i w : Nat) (h : 0 < p + i + w) :
    compliance_score p i w = 100 * p / (p + i + w) := by
  have h' := compliance_score_eq_natDiv p i w (by omega)
  rw [show i + w + p = p + i + w by omega] at h'
  exact h'

/-- Witness for C4's theorem at passed=8, issues=2, warnings=0: score 80. -/
theorem compliance_score_is_truncation_witness :
    0 < 8 + 2 + 0 ∧ compliance_score 8 2 0 = 80 :=
  ⟨by decide, by rw [compliance_score_is_truncation 8 2 0 (by decide)]⟩

/-! ### Heading normalizer (`pdf_processor.py`, `fix_heading_hierarchy`)

A heading is modelled by its level and the length of its stripped text
(the only two attributes the function reads); the document by whether a
`<main>` landmark exists plus its heading sequence in document order.
`ensure_document_structure` is not always run first (`apply_specific_fix`
calls `fix_heading_hierarchy` directly), so `has_main` may be false.
`main.insert(0, h1)` is modelled as prepending to the heading sequence,
which matches documents whose headings all live inside `<main>`. -/

/-- A heading element: its level (1..6) and stripped text length. -/
structure Heading where
  level : Nat
  text_len : Nat
  deriving DecidableEq, Repr

/-- The document state `fix_heading_hierarchy` reads. -/
structure HtmlDoc where
  has_main : Bool
  headings : List Heading
  deriving DecidableEq, Repr

/-- The `h1` with text `'Document'` (8 characters) the source synthesizes. -/
def document_h1 : Heading := ⟨1, 8⟩

/-- The clamp loop (`last_level = 1`; `if current_level > last_level + 1:
heading.name = f'h{last_level + 1}'`; `last_level = current_level`). -/
def clamp_pass (last : Nat) : List Heading → List Heading
  | [] => []
  | h :: rest =>
    if h.level > last + 1 then
      ⟨last + 1, h.text_len⟩ :: clamp_pass (last + 1) rest
    else
      h :: clamp_pass h.level rest

/-- The first-heading fix: convert a short first non-`h1` heading to `h1`
when a `<main>` exists, else insert a `'Document'` `h1`; without `<main>`
nothing happens. -/
def fix_first_heading (has_main : Bool) : List Heading → List Heading
  | [] => []
  | fh :: rest =>
    if fh.level ≠ 1 then
      if has_main ∧ fh.text_len < 100 then
        ⟨1, fh.text_len⟩ :: rest
      else if has_main then
        document_h1 :: fh :: rest
      else
        fh :: rest
    else
      fh :: rest

/-- `PDFProcessor.fix_heading_hierarchy`: default `h1` for an empty
sequence (only when a `<main>` exists to hold it), then the first-heading
fix, then the clamp loop with `last_level = 1`. -/
def fix_heading_hierarchy (doc : HtmlDoc) : HtmlDoc :=
  match doc.headings with
  | [] => if doc.has_main then { doc with headings := [document_h1] } else doc
  | fh :: rest =>
    { doc with headings := clamp_pass 1 (fix_first_heading doc.has_main (fh :: rest)) }

/-- `AccessibilityChecker.check_heading_hierarchy`'s skipped-level scan:
`last_level = 0`; record `f'h{last} to h{cur}'` when `last > 0` and
`cur > last + 1`. -/
def skipped_levels_go (last : Nat) : List Nat → List String
  | [] => []
  | cur :: rest =>
    if last > 0 ∧ cur > last + 1 then
      ("h" ++ toString last ++ " to h" ++ toString cur) :: skipped_levels_go cur rest
    else
      skipped_levels_go cur rest

/-- The skipped-level records of a heading-level sequence. -/
def skipped_levels (levels : List Nat) : List String :=
  skipped_levels_go 0 levels

/-- The checker reports the `'Skipped Heading Levels'` issue exactly when
the scan found a skip. -/
def check_skipped_heading_levels (levels : List Nat) : Bool :=
  !(skipped_levels levels).isEmpty

/-- The guarantee the clamp loop actually enforces: each heading's level
exceeds the previous resolved level by at most one (the first relative to
`last`). -/
def up_chain (last : Nat) : List Heading → Prop
  | [] => True
  | h :: rest => h.level ≤ last + 1 ∧ up_chain h.level rest

/-- The invariant claimed by the spec, on a resolved level sequence: first
level 1 and consecutive levels differing by at most one in absolute value. -/
def claimed_heading_invariant (levels : List Nat) : Bool :=
  (match levels with
   | [] => true
   | l :: _ => l == 1) &&
  abs_diff_chain levels
where
  abs_diff_chain : List Nat → Bool
    | [] => true
    | [_] => true
    | a :: b :: rest => decide (max a b - min a b ≤ 1) && abs_diff_chain (b :: rest)

/-! Lemmas about the clamp loop. -/

/-- The clamp loop establishes `up_chain`. -/
theorem clamp_pass_up_chain (hs : List Heading) (last : Nat) :
    up_chain last (clamp_pass last hs) := by
  induction hs generalizing last with
  | nil => trivial
  | cons a t ih =>
    by_cases hgt : a.level > last + 1
    · simp only [clamp_pass, if_pos hgt]
      exact ⟨le_refl _, ih _⟩
    · simp only [clamp_pass, if_neg hgt]
      exact ⟨by omega, ih _⟩

/-- The clamp loop is the identity on sequences already satisfying
`up_chain`. -/
theorem clamp_pass_id (hs : List Heading) (last : Nat) (h : up_chain last hs) :
    clamp_pass last hs = hs := by
  induction hs generalizing last with
  | nil => rfl
  | cons a t ih =>
    obtain ⟨h1, h2⟩ := h
    simp only [clamp_pass, if_neg (by omega : ¬a.level > last + 1)]
    rw [ih _ h2]

/-- Without a `<main>` landmark the first-heading fix does nothing. -/
theorem fix_first_heading_false (l : List Heading) : fix_first_heading false l = l := by
  cases l with
  | nil => rfl
  | cons a t => simp [fix_first_heading]

/-- The first-heading fix does nothing once the first heading is an `h1`. -/
theorem fix_first_heading_level_one (hm : Bool) (a : Heading) (t : List Heading)
    (h : a.level = 1) : fix_first_heading hm (a :: t) = a :: t := by
  simp [fix_first_heading, h]

/-- With a `<main>` landmark the first-heading fix always yields a sequence
starting at level 1. -/
theorem fix_first_heading_true_head (fh : Heading) (rest : List Heading) :
    ∃ c t', fix_first_heading true (fh :: rest) = c :: t' ∧ c.level = 1 := by
  by_cases h1 : fh.level = 1
  · exact ⟨fh, rest, fix_first_heading_level_one true fh rest h1, h1⟩
  · by_cases hlen : fh.text_len < 100
    · exact ⟨⟨1, fh.text_len⟩, rest, by simp [fix_first_heading, h1, hlen], rfl⟩
    · exact ⟨document_h1, fh :: rest, by simp [fix_first_heading, h1, hlen], rfl⟩

/-- A document whose heading sequence already starts as the normalizer
leaves it is a fixed point. -/
theorem fix_heading_hierarchy_fixed (hm : Bool) (b : Heading) (t : List Heading)
    (hfix : fix_first_heading hm (b :: t) = b :: t)
    (hchain : up_chain 1 (b :: t)) :
    fix_heading_hierarchy ⟨hm, b :: t⟩ = ⟨hm, b :: t⟩ := by
  simp only [fix_heading_hierarchy]
  rw [hfix, clamp_pass_id _ _ hchain]

/-- C5 counterexample: a document with no `<main>` landmark and headings
`[h3, h4, h1]` normalizes to resolved levels `[2, 3, 1]` — the first
resolved level is not 1, and the drop from 3 to 1 makes consecutive
resolved levels differ by more than 1, refuting the claimed invariant. -/
theorem heading_invariant_counterexample :
    (fix_heading_hierarchy ⟨false, [⟨3, 5⟩, ⟨4, 5⟩, ⟨1, 5⟩]⟩).headings.map Heading.level
      = [2, 3, 1] ∧
    claimed_heading_invariant [2, 3, 1] = false := by
  constructor
  · rfl
  · rfl

/-- C5 (amended): after the normalizer runs, no resolved heading level
exceeds its predecessor by more than one (with the first at most 2),
and the first resolved level is 1 whenever the document has a `<main>`
landmark; downward jumps remain unbounded and without `<main>` the first
heading is only clamped, not forced to 1. -/
theorem heading_invariant_amended (doc : HtmlDoc) :
    up_chain 1 (fix_heading_hierarchy doc).headings ∧
    (doc.has_main = true →
      ∃ c t', (fix_heading_hierarchy doc).headings = c :: t' ∧ c.level = 1) := by
  obtain ⟨hm, hs⟩ := doc
  cases hs with
  | nil =>
    cases hm with
    | false => exact ⟨trivial, by simp⟩
    | true =>
      refine ⟨⟨by decide, trivial⟩, fun _ => ⟨document_h1, [], rfl, rfl⟩⟩
  | cons fh rest =>
    cases hm with
    | false =>
      refine ⟨?_, by simp⟩
      simp only [fix_heading_hierarchy]
      exact clamp_pass_up_chain _ 1
    | true =>
      obtain ⟨c, t', hY, hc⟩ := fix_first_heading_true_head fh rest
      have hout : (fix_heading_hierarchy ⟨true, fh :: rest⟩).headings =
          c :: clamp_pass c.level t' := by
        simp only [fix_heading_hierarchy]
        rw [hY]
        simp only [clamp_pass]
        rw [if_neg (by omega)]
      rw [hout]
      exact ⟨⟨by omega, clamp_pass_up_chain t' c.level⟩,
        fun _ => ⟨c, clamp_pass c.level t', rfl, hc⟩⟩

/-- C6: the heading normalizer is idempotent — a second run on the output
of the first changes no heading levels and inserts no headings. -/
theorem fix_heading_hierarchy_idempotent (doc : HtmlDoc) :
    fix_heading_hierarchy (fix_heading_hierarchy doc) = fix_heading_hierarchy doc := by
  obtain ⟨hm, hs⟩ := doc
  cases hs with
  | nil =>
    cases hm with
    | false => rfl
    | true =>
      have h : fix_heading_hierarchy ⟨true, ([] : List Heading)⟩ =
          ⟨true, [document_h1]⟩ := rfl
      rw [h]
      exact fix_heading_hierarchy_fixed true document_h1 []
        (fix_first_heading_level_one true document_h1 [] rfl) ⟨by decide, trivial⟩
  | cons fh rest =>
    cases hm with
    | false =>
      have h1 : fix_heading_hierarchy ⟨false, fh :: rest⟩ =
          ⟨false, clamp_pass 1 (fh :: rest)⟩ := by
        simp only [fix_heading_hierarchy]
        rw [fix_first_heading_false]
      obtain ⟨c, t', hct⟩ : ∃ c t', clamp_pass 1 (fh :: rest) = c :: t' := by
        simp only [clamp_pass]
        split_ifs <;> exact ⟨_, _, rfl⟩
      rw [h1, hct]
      refine fix_heading_hierarchy_fixed false c t' (fix_first_heading_false _) ?_
      have := clamp_pass_up_chain (fh :: rest) 1
      rwa [hct] at this
    | true =>
      obtain ⟨c, t', hY, hc⟩ := fix_first_heading_true_head fh rest
      have hout : fix_heading_hierarchy ⟨true, fh :: rest⟩ =
          ⟨true, c :: clamp_pass c.level t'⟩ := by
        simp only [fix_heading_hierarchy]
        rw [hY]
        simp only [clamp_pass]
        rw [if_neg (by omega)]
      rw [hout]
      exact fix_heading_hierarchy_fixed true c _
        (fix_first_heading_level_one true c _ hc)
        ⟨by omega, clamp_pass_up_chain t' c.level⟩

/-- C7 counterexample: normalizing the heading sequence `[h1, h3, h2]`
produces resolved levels `[1, 2, 2]`, not the claimed `[1, 2, 3]`. -/
theorem heading_scenario_counterexample :
    (fix_heading_hierarchy ⟨true, [⟨1, 5⟩, ⟨3, 5⟩, ⟨2, 5⟩]⟩).headings.map Heading.level
      = [1, 2, 2] ∧
    ([1, 2, 2] : List Nat) ≠ [1, 2, 3] := by
  exact ⟨rfl, by decide⟩

/-- C7 (amended): normalizing `[h1, h3, h2]` produces resolved levels
`[1, 2, 2]` (the `h3` is clamped to `h2`, and the original `h2` stays),
and the compliance checker reports the skipped-heading-levels issue for
the `h1 → h3` jump in the original sequence. -/
theorem heading_scenario_amended :
    (fix_heading_hierarchy ⟨true, [⟨1, 5⟩, ⟨3, 5⟩, ⟨2, 5⟩]⟩).headings.map Heading.level
      = [1, 2, 2] ∧
    skipped_levels [1, 3, 2] = ["h1 to h3"] ∧
    check_skipped_heading_levels [1, 3, 2] = true := by
  refine ⟨rfl, ?_, rfl⟩
  rfl

/-! ### Link remediation (`pdf_remediator.py`: `LinkInfo.is_generic_link_text`,
`analyze_links`, `fix_links`, `_generate_link_description`) -/

/-- A link as `analyze_links` records it. -/
structure LinkInfo where
  text : String
  url : String
  page_number : Nat
  is_descriptive : Bool
  deriving DecidableEq, Repr

/-- The source's full generic-phrase list (ten phrases, not five). -/
def generic_link_phrases : List String :=
  ["click here", "read more", "more", "link", "here",
   "this", "page", "website", "download", "view"]

/-- `LinkInfo.is_generic_link_text`: lowercase, strip, then membership in
the phrase list or length below 3. -/
def is_generic_link_text (text : String) : Bool :=
  let text_lower := pyStrip (pyLower text)
  generic_link_phrases.contains text_lower || decide (text_lower.length < 3)

/-- `analyze_links` loop body: `is_descriptive = not is_generic_link_text()`. -/
def analyze_link (text url : String) (page : Nat) : LinkInfo :=
  { text := text, url := url, page_number := page,
    is_descriptive := !(is_generic_link_text text) }

/-- `re.sub(r'https?://', '', url)`: a left-to-right scan deleting every
occurrence of `https://` or `http://` (the longer alternative first, as the
regex's optional `s` makes it). -/
def sub_scheme : List Char → List Char
  | [] => []
  | 'h' :: 't' :: 't' :: 'p' :: 's' :: ':' :: '/' :: '/' :: rest => sub_scheme rest
  | 'h' :: 't' :: 't' :: 'p' :: ':' :: '/' :: '/' :: rest => sub_scheme rest
  | c :: cs => c :: sub_scheme cs

/-- `EnhancedPDFRemediator._generate_link_description`: strip scheme, strip
one leading `www.`, keep the first `/`-separated component, and turn `-`
and `_` into spaces. -/
def generate_link_description (url : String) : String :=
  let noScheme := sub_scheme url.data
  let noWww := if "www.".data.isPrefixOf noScheme then noScheme.drop 4 else noScheme
  let domain : String := ⟨noWww.takeWhile (fun c => c ≠ '/')⟩
  "Link to " ++ pyReplaceChar '_' ' ' (pyReplaceChar '-' ' ' domain)

/-- One iteration of the `fix_links` loop: rewrite the text exactly when the
link is non-descriptive and has a URL. -/
def fix_link_step (link : LinkInfo) : LinkInfo :=
  if link.is_descriptive = false ∧ link.url ≠ "" then
    { link with text := generate_link_description link.url }
  else
    link

/-- `EnhancedPDFRemediator.fix_links` over the analyzed link list. -/
def fix_links (links : List LinkInfo) : List LinkInfo :=
  links.map fix_link_step

/-- C10 counterexample: the link text `"download"` is neither empty nor in
the spec's five-phrase denylist, yet `fix_links` rewrites it to
`"Link to example.com"`. -/
theorem link_download_rewritten :
    (fix_link_step (analyze_link "download" "https://example.com" 1)).text
      = "Link to example.com" ∧
    ("download" : String) ∉ ["click here", "read more", "more", "link", "here"] ∧
    ("download" : String) ≠ "" := by
  refine ⟨?_, by decide, by decide⟩
  rfl

/-- C10 (amended): the rewrite fires exactly for links whose lowercased,
stripped text is one of the source's ten generic phrases or shorter than 3
characters (covering the empty text), and only when the URL is non-empty;
such links get `"Link to <domain>"`, every other link is unchanged. -/
theorem link_rewrite_characterization (text url : String) (p : Nat) :
    (is_generic_link_text text = false ∨ url = "" →
      fix_link_step (analyze_link text url p) = analyze_link text url p) ∧
    (is_generic_link_text text = true → url ≠ "" →
      (fix_link_step (analyze_link text url p)).text = generate_link_description url) ∧
    (is_generic_link_text text = true ↔
      pyStrip (pyLower text) ∈ generic_link_phrases ∨ (pyStrip (pyLower text)).length < 3) := by
  refine ⟨?_, ?_, ?_⟩
  · rintro (hg | hu)
    · simp [fix_link_step, analyze_link, hg]
    · simp [fix_link_step, analyze_link, hu]
  · intro hg hu
    simp [fix_link_step, analyze_link, hg, hu]
  · simp [is_generic_link_text, List.elem_iff]

/-! ### Structure-tree builder (`pdf_remediator.py`: `tag_images`,
`tag_form_fields`, `tag_annotations`, `mark_unmarked_content_as_artifacts`)

The persistent PDF state is a list of pages (whose XObject dictionaries
are immutable under these operations), the AcroForm field dictionaries,
the annotation dictionaries, the structure-tree children array
`StructTreeRoot.K` and the `ParentTree.Nums` array.  `Nums` is a flat
array alternating index and element in the source; it is modelled as a
list of pairs, so `len(Nums) // 2` becomes `nums.length`.  Structure
elements keep the fields the claims read (`/S`, `/Alt`, `/T`); `/P`,
`/BBox` and the `/K` marked-content reference are not read by any claim
and are omitted.  Each tagging function analyzes lazily from the current
dictionaries (`if not self.images: self.analyze_images()`), and each
field/annotation dictionary is mutated only in its own loop iteration, so
analysis is computed per element from its pre-iteration state. -/

/-- Structure-element roles created by the builder. -/
inductive PRole
  | Figure
  | Artifact
  | Form
  | Note
  | Span
  | Stamp
  | Annot
  deriving DecidableEq, Repr

/-- A structure element: `/S` role, `/Alt`, `/T`. -/
structure StructElem where
  s : PRole
  alt : Option String
  t : Option String
  deriving DecidableEq, Repr

/-- An XObject in a page's resources: name key, `/Subtype` (sans slash),
`/Width`, `/Height`. -/
structure XObj where
  name : String
  subtype : String
  width : Nat
  height : Nat
  deriving DecidableEq, Repr

/-- A page: its XObject dictionary in iteration order. -/
structure Page where
  xobjects : List XObj
  deriving DecidableEq, Repr

/-- An AcroForm field dictionary: `/FT` (sans slash), `/T`, `/TU`,
`/StructParent`. -/
structure FormField where
  ft : String
  t : Option String
  tu : Option String
  struct_parent : Option Nat
  deriving DecidableEq, Repr

/-- An annotation dictionary plus the page it sits on: `/Subtype` (sans
slash), `/Contents`, `/Alt`, `/StructParent`. -/
structure Annot where
  subtype : String
  page_number : Nat
  contents : Option String
  alt : Option String
  struct_parent : Option Nat
  deriving DecidableEq, Repr

/-- The state the builder reads and writes. -/
structure PdfState where
  pages : List Page
  fields : List FormField
  annots : List Annot
  k : List StructElem
  nums : List (Nat × StructElem)
  deriving DecidableEq, Repr

/-- `ImageInfo` as `analyze_images` records it. -/
structure ImageInfo where
  name : String
  width : Nat
  height : Nat
  page_number : Nat
  is_decorative : Bool
  alt_text : String
  deriving DecidableEq, Repr

/-- `analyze_images` inner loop over one page's XObjects. -/
def analyze_images_page (pn : Nat) : List XObj → List ImageInfo
  | [] => []
  | x :: rest =>
    if x.subtype = "Image" then
      let dec := determine_if_decorative x.width x.height
      { name := x.name, width := x.width, height := x.height, page_number := pn,
        is_decorative := dec,
        alt_text := if dec then "" else generate_alt_text x.width x.height pn } ::
        analyze_images_page pn rest
    else
      analyze_images_page pn rest

/-- `analyze_images` page loop (pages are numbered from 1). -/
def analyze_images_go (pn : Nat) : List Page → List ImageInfo
  | [] => []
  | p :: ps => analyze_images_page pn p.xobjects ++ analyze_images_go (pn + 1) ps

/-- `EnhancedPDFRemediator.analyze_images`. -/
def analyze_images (pages : List Page) : List ImageInfo :=
  analyze_images_go 1 pages

/-- The structure element `tag_images` builds for one image: an `Artifact`
with explicitly empty `/Alt` for a decorative image, else a `Figure` with
the analyzed alt text and the title `"Image on page N"`. -/
def new_figure_elem (info : ImageInfo) (pn : Nat) : StructElem :=
  if info.is_decorative then
    { s := PRole.Artifact, alt := some "", t := none }
  else
    { s := PRole.Figure, alt := some info.alt_text,
      t := some ("Image on page " ++ toString pn) }

/-- `struct_parent_idx = len(parent_tree.Nums) // 2`, append the pair to
`Nums` and the element to `StructTreeRoot.K`. -/
def append_with_index (st : PdfState) (e : StructElem) : PdfState :=
  let idx := st.nums.length
  { st with nums := st.nums ++ [(idx, e)], k := st.k ++ [e] }

/-- `tag_images` inner loop over one page's XObjects: every image with an
`ImageInfo` match is tagged — there is no already-tagged check here. -/
def tag_images_xobjs (images : List ImageInfo) (pn : Nat) :
    List XObj → PdfState → PdfState
  | [], st => st
  | x :: rest, st =>
    if x.subtype = "Image" then
      match images.find? (fun im => im.page_number == pn && im.name == x.name) with
      | none => tag_images_xobjs images pn rest st
      | some info => tag_images_xobjs images pn rest (append_with_index st (new_figure_elem info pn))
    else
      tag_images_xobjs images pn rest st

/-- `tag_images` page loop. -/
def tag_images_pages (images : List ImageInfo) (pn : Nat) :
    List Page → PdfState → PdfState
  | [], st => st
  | p :: ps, st => tag_images_pages images (pn + 1) ps (tag_images_xobjs images pn p.xobjects st)

/-- `EnhancedPDFRemediator.tag_images` (its `self.images` cache is empty at
the start of a run, so it analyzes from the current pages). -/
def tag_images (st : PdfState) : PdfState :=
  tag_images_pages (analyze_images st.pages) 1 st.pages st

/-- `if '/StructParent' not in field: ...` — allocate a ParentTree index
(`len(Nums) // 2`) and append the pair only when the object has none yet;
shared by the form-field and annotation loops. -/
def link_with_index (st : PdfState) (sp : Option Nat) (elem : StructElem) :
    Option Nat × PdfState :=
  match sp with
  | some i => (some i, st)
  | none =>
    let idx := st.nums.length
    (some idx, { st with nums := st.nums ++ [(idx, elem)] })

/-- One iteration of the `tag_form_fields` loop: ensure `/TU` and `/T`,
build the `Form` element, link via `link_with_index`, and always append
the element to `K`.  `count` is `tagged_count`, used for the synthesized
`Field_{n+1}` name. -/
def tag_form_field_step (count : Nat) (f : FormField) (st : PdfState) :
    FormField × PdfState :=
  let tooltip_text := f.tu.getD ""
  let has_tooltip := tooltip_text ≠ ""
  let label_text := f.t.getD ""
  let has_label := label_text ≠ ""
  let f1 := if has_tooltip then f else
    { f with tu := some (if label_text ≠ "" then pyTitle (pyReplaceChar '_' ' ' label_text)
                         else f.ft ++ " field") }
  let f2 := if has_label then f1 else
    { f1 with t := some (if label_text ≠ "" then label_text
                         else "Field_" ++ toString (count + 1)) }
  let elem : StructElem :=
    { s := PRole.Form,
      t := some (f2.tu.getD (f2.t.getD "")),
      alt := some (f2.tu.getD "") }
  let linked := link_with_index st f2.struct_parent elem
  let f3 := { f2 with struct_parent := linked.1 }
  let st2 := { linked.2 with k := linked.2.k ++ [elem] }
  (f3, st2)

/-- The `tag_form_fields` loop over the AcroForm field list. -/
def tag_form_fields_go (count : Nat) : List FormField → PdfState → List FormField × PdfState
  | [], st => ([], st)
  | f :: fs, st =>
    let step := tag_form_field_step count f st
    let res := tag_form_fields_go (count + 1) fs step.2
    (step.1 :: res.1, res.2)

/-- `EnhancedPDFRemediator.tag_form_fields`. -/
def tag_form_fields (st : PdfState) : PdfState :=
  let res := tag_form_fields_go 0 st.fields st
  { res.2 with fields := res.1 }

/-- `AnnotationInfo.should_be_tagged`'s subtype list. -/
def annot_taggable_types : List String :=
  ["Text", "FreeText", "Stamp", "Ink", "Highlight", "Underline", "StrikeOut",
   "Square", "Circle", "Polygon", "PolyLine", "FileAttachment"]

/-- `tag_annotations`' subtype-to-structure-type map (default `Annot`). -/
def annot_struct_type : String → PRole
  | "Text" => PRole.Note
  | "FreeText" => PRole.Note
  | "Stamp" => PRole.Stamp
  | "Ink" => PRole.Annot
  | "Highlight" => PRole.Span
  | "Underline" => PRole.Span
  | "StrikeOut" => PRole.Span
  | "Square" => PRole.Figure
  | "Circle" => PRole.Figure
  | "Polygon" => PRole.Figure
  | "PolyLine" => PRole.Figure
  | "FileAttachment" => PRole.Annot
  | _ => PRole.Annot

/-- One iteration of the `tag_annotations` loop body for a taggable
annotation: `has_alt_text = bool(contents) or '/Alt' in annot`; contents
are synthesized when absent; the element carries the (possibly synthesized)
contents as `/Alt` and `"<subtype> annotation"` as `/T`; a ParentTree index
is allocated only when the annotation has no `/StructParent`. -/
def tag_annotation_step (a : Annot) (st : PdfState) : Annot × PdfState :=
  let contents0 := a.contents.getD ""
  let has_alt_text := contents0 ≠ "" || a.alt.isSome
  let new_contents := if has_alt_text then contents0
    else a.subtype ++ " annotation on page " ++ toString a.page_number
  let a1 := if has_alt_text then a else { a with contents := some new_contents }
  let elem : StructElem :=
    { s := annot_struct_type a.subtype,
      alt := some new_contents,
      t := some (a.subtype ++ " annotation") }
  let linked := link_with_index st a1.struct_parent elem
  let a2 := { a1 with struct_parent := linked.1 }
  let st2 := { linked.2 with k := linked.2.k ++ [elem] }
  (a2, st2)

/-- The `tag_annotations` loop over the annotation list. -/
def tag_annotations_go : List Annot → PdfState → List Annot × PdfState
  | [], st => ([], st)
  | a :: rest, st =>
    if a.subtype = "Link" then
      let res := tag_annotations_go rest st
      (a :: res.1, res.2)
    else if annot_taggable_types.contains a.subtype then
      let step := tag_annotation_step a st
      let res := tag_annotations_go rest step.2
      (step.1 :: res.1, res.2)
    else
      let res := tag_annotations_go rest st
      (a :: res.1, res.2)

/-- `EnhancedPDFRemediator.tag_annotations`. -/
def tag_annotations (st : PdfState) : PdfState :=
  let res := tag_annotations_go st.annots st
  { res.2 with annots := res.1 }

/-- The `tagged_images` identity set built at the start of
`mark_unmarked_content_as_artifacts`: the `/T` strings of `Figure`
elements already in `K` (`tagged_form_fields` and `tagged_annotations`
are collected too but never read afterwards). -/
def tagged_figure_titles (k : List StructElem) : List String :=
  k.filterMap (fun e => if e.s = PRole.Figure then some (e.t.getD "") else none)

/-- The artifact element `mark_unmarked_content_as_artifacts` creates:
role `Artifact`, explicitly empty `/Alt`, no `/T`. -/
def artifact_elem : StructElem :=
  { s := PRole.Artifact, alt := some "", t := none }

/-- `mark_unmarked_content_as_artifacts` inner loop over one page's
XObjects.  The identity key is `"Image on page N"` for every XObject; an
image found in `self.images` creates nothing (decorative ones are handled
by `tag_images`, descriptive ones fall through); an unknown image and
every Form XObject are wrapped in an artifact appended to `K` only (no
ParentTree entry). -/
def mark_unmarked_xobjs (images : List ImageInfo) (tagged : List String) (pn : Nat) :
    List XObj → PdfState → PdfState
  | [], st => st
  | x :: rest, st =>
    if tagged.contains ("Image on page " ++ toString pn) then
      mark_unmarked_xobjs images tagged pn rest st
    else if x.subtype = "Image" then
      match images.find? (fun im => im.page_number == pn && im.name == x.name) with
      | some info =>
        if info.is_decorative then
          mark_unmarked_xobjs images tagged pn rest st
        else
          mark_unmarked_xobjs images tagged pn rest st
      | none =>
        mark_unmarked_xobjs images tagged pn rest { st with k := st.k ++ [artifact_elem] }
    else if x.subtype = "Form" then
      mark_unmarked_xobjs images tagged pn rest { st with k := st.k ++ [artifact_elem] }
    else
      mark_unmarked_xobjs images tagged pn rest st

/-- `mark_unmarked_content_as_artifacts` page loop. -/
def mark_unmarked_pages (images : List ImageInfo) (tagged : List String) (pn : Nat) :
    List Page → PdfState → PdfState
  | [], st => st
  | p :: ps, st =>
    mark_unmarked_pages images tagged (pn + 1) ps (mark_unmarked_xobjs images tagged pn p.xobjects st)

/-- `EnhancedPDFRemediator.mark_unmarked_content_as_artifacts`: the tagged
sets are computed once from the current `K`, then every page is scanned.
`images` is the `self.images` cache, populated by `tag_images` earlier in
the run. -/
def mark_unmarked_content_as_artifacts (images : List ImageInfo) (st : PdfState) : PdfState :=
  mark_unmarked_pages images (tagged_figure_titles st.k) 1 st.pages st

/-- One `remediate()` run of the structure-tree builder, in the source's
order: `tag_images` (step 5), `tag_form_fields` (step 8),
`tag_annotations` (step 9), `mark_unmarked_content_as_artifacts`
(step 9.5).  `tag_tables` (step 7) is omitted: `analyze_tables` always
returns the empty list, so it never creates nodes; `tag_headings` (step 6)
only runs when a `heading_map` option is supplied.  A fresh remediator is
used per run (as in `test_tag_detection.py`), so `self.images` is
analyzed from the pages at the start of the run. -/
def remediate_run (st : PdfState) : PdfState :=
  let images := analyze_images st.pages
  mark_unmarked_content_as_artifacts images (tag_annotations (tag_form_fields (tag_images st)))

/-! ### Builder invariants: ParentTree index freshness and artifact alt text -/

/-- The `Nums` well-formedness the builder maintains: the pair at position
`i` carries index `i`, i.e. the indices are exactly `0, 1, …, n-1` in
order.  A freshly created ParentTree (`Nums = []`) satisfies it. -/
def nums_canonical (nums : List (Nat × StructElem)) : Prop :=
  nums.map Prod.fst = List.range nums.length

/-- Appending a pair indexed by the current pair count preserves
canonicity. -/
theorem nums_canonical_append (nums : List (Nat × StructElem)) (e : StructElem)
    (h : nums_canonical nums) : nums_canonical (nums ++ [(nums.length, e)]) := by
  unfold nums_canonical at h ⊢
  simp [List.range_succ, h]

/-- `link_with_index` preserves canonicity (it either leaves `Nums` alone
or appends at the current count). -/
theorem link_with_index_nums (st : PdfState) (sp : Option Nat) (e : StructElem)
    (h : nums_canonical st.nums) : nums_canonical (link_with_index st sp e).2.nums := by
  cases sp with
  | some i => exact h
  | none => exact nums_canonical_append st.nums e h

/-- `link_with_index` never touches `K`. -/
theorem link_with_index_k (st : PdfState) (sp : Option Nat) (e : StructElem) :
    (link_with_index st sp e).2.k = st.k := by
  cases sp with
  | some i => rfl
  | none => rfl

/-- The artifact-alt invariant of C9: every `Artifact`-role element carries
the explicitly empty alt string. -/
def artifact_alt_ok (k : List StructElem) : Prop :=
  ∀ e ∈ k, e.s = PRole.Artifact → e.alt = some ""

/-- Appending an element that satisfies the artifact-alt condition
preserves the invariant. -/
theorem artifact_alt_ok_append (k : List StructElem) (e : StructElem)
    (h : artifact_alt_ok k) (he : e.s = PRole.Artifact → e.alt = some "") :
    artifact_alt_ok (k ++ [e]) := by
  intro e' he' ha
  rcases List.mem_append.mp he' with h1 | h2
  · exact h e' h1 ha
  · rw [List.mem_singleton.mp h2]
    exact he (by rw [← List.mem_singleton.mp h2]; exact ha)

/-- The element `tag_images` creates is either an `Artifact` with empty
alt or a `Figure`. -/
theorem new_figure_elem_artifact_ok (info : ImageInfo) (pn : Nat) :
    (new_figure_elem info pn).s = PRole.Artifact → (new_figure_elem info pn).alt = some "" := by
  unfold new_figure_elem
  split
  · intro _; rfl
  · intro h; simp at h

/-- The annotation subtype-to-role map never produces `Artifact`. -/
theorem annot_struct_type_ne_artifact (s : String) :
    annot_struct_type s ≠ PRole.Artifact := by
  unfold annot_struct_type
  split <;> decide

/-! Per-operation preservation of `nums_canonical`. -/

theorem tag_images_xobjs_nums (images : List ImageInfo) (pn : Nat) :
    ∀ (xs : List XObj) (st : PdfState), nums_canonical st.nums →
      nums_canonical (tag_images_xobjs images pn xs st).nums := by
  intro xs
  induction xs with
  | nil => intro st h; exact h
  | cons x rest ih =>
    intro st h
    simp only [tag_images_xobjs]
    split
    · split
      · exact ih st h
      · exact ih _ (nums_canonical_append st.nums _ h)
    · exact ih st h

theorem tag_images_pages_nums (images : List ImageInfo) :
    ∀ (pages : List Page) (pn : Nat) (st : PdfState), nums_canonical st.nums →
      nums_canonical (tag_images_pages images pn pages st).nums := by
  intro pages
  induction pages with
  | nil => intro pn st h; exact h
  | cons p ps ih =>
    intro pn st h
    exact ih (pn + 1) _ (tag_images_xobjs_nums images pn p.xobjects st h)

theorem tag_images_nums (st : PdfState) (h : nums_canonical st.nums) :
    nums_canonical (tag_images st).nums :=
  tag_images_pages_nums _ st.pages 1 st h

theorem tag_form_field_step_nums (c : Nat) (f : FormField) (st : PdfState)
    (h : nums_canonical st.nums) :
    nums_canonical (tag_form_field_step c f st).2.nums :=
  link_with_index_nums st _ _ h

theorem tag_form_fields_go_nums :
    ∀ (fs : List FormField) (c : Nat) (st : PdfState), nums_canonical st.nums →
      nums_canonical (tag_form_fields_go c fs st).2.nums := by
  intro fs
  induction fs with
  | nil => intro c st h; exact h
  | cons f fs ih =>
    intro c st h
    exact ih (c + 1) _ (tag_form_field_step_nums c f st h)

theorem tag_form_fields_nums (st : PdfState) (h : nums_canonical st.nums) :
    nums_canonical (tag_form_fields st).nums :=
  tag_form_fields_go_nums st.fields 0 st h

theorem tag_annotation_step_nums (a : Annot) (st : PdfState)
    (h : nums_canonical st.nums) :
    nums_canonical (tag_annotation_step a st).2.nums :=
  link_with_index_nums st _ _ h

theorem tag_annotations_go_nums :
    ∀ (annots : List Annot) (st : PdfState), nums_canonical st.nums →
      nums_canonical (tag_annotations_go annots st).2.nums := by
  intro annots
  induction annots with
  | nil => intro st h; exact h
  | cons a rest ih =>
    intro st h
    simp only [tag_annotations_go]
    split
    · exact ih st h
    · split
      · exact ih _ (tag_annotation_step_nums a st h)
      · exact ih st h

theorem tag_annotations_nums (st : PdfState) (h : nums_canonical st.nums) :
    nums_canonical (tag_annotations st).nums :=
  tag_annotations_go_nums st.annots st h

theorem mark_unmarked_xobjs_nums (images : List ImageInfo) (tagged : List String) (pn : Nat) :
    ∀ (xs : List XObj) (st : PdfState),
      (mark_unmarked_xobjs images tagged pn xs st).nums = st.nums := by
  intro xs
  induction xs with
  | nil => intro st; rfl
  | cons x rest ih =>
    intro st
    simp only [mark_unmarked_xobjs]
    split
    · exact ih st
    · split
      · split
        · split
          · exact ih st
          · exact ih st
        · exact ih _
      · split
        · exact ih _
        · exact ih st

theorem mark_unmarked_pages_nums (images : List ImageInfo) (tagged : List String) :
    ∀ (pages : List Page) (pn : Nat) (st : PdfState),
      (mark_unmarked_pages images tagged pn pages st).nums = st.nums := by
  intro pages
  induction pages with
  | nil => intro pn st; rfl
  | cons p ps ih =>
    intro pn st
    rw [mark_unmarked_pages, ih, mark_unmarked_xobjs_nums]

theorem mark_unmarked_nums (images : List ImageInfo) (st : PdfState) :
    (mark_unmarked_content_as_artifacts images st).nums = st.nums :=
  mark_unmarked_pages_nums images _ st.pages 1 st

/-! Per-operation preservation of `artifact_alt_ok`. -/

theorem append_with_index_k_ok (st : PdfState) (e : StructElem)
    (h : artifact_alt_ok st.k) (he : e.s = PRole.Artifact → e.alt = some "") :
    artifact_alt_ok (append_with_index st e).k :=
  artifact_alt_ok_append st.k e h he

theorem tag_images_xobjs_k (images : List ImageInfo) (pn : Nat) :
    ∀ (xs : List XObj) (st : PdfState), artifact_alt_ok st.k →
      artifact_alt_ok (tag_images_xobjs images pn xs st).k := by
  intro xs
  induction xs with
  | nil => intro st h; exact h
  | cons x rest ih =>
    intro st h
    simp only [tag_images_xobjs]
    split
    · split
      · exact ih st h
      · exact ih _ (append_with_index_k_ok st _ h (new_figure_elem_artifact_ok _ pn))
    · exact ih st h

theorem tag_images_pages_k (images : List ImageInfo) :
    ∀ (pages : List Page) (pn : Nat) (st : PdfState), artifact_alt_ok st.k →
      artifact_alt_ok (tag_images_pages images pn pages st).k := by
  intro pages
  induction pages with
  | nil => intro pn st h; exact h
  | cons p ps ih =>
    intro pn st h
    exact ih (pn + 1) _ (tag_images_xobjs_k images pn p.xobjects st h)

theorem tag_images_k (st : PdfState) (h : artifact_alt_ok st.k) :
    artifact_alt_ok (tag_images st).k :=
  tag_images_pages_k _ st.pages 1 st h

theorem tag_form_field_step_k (c : Nat) (f : FormField) (st : PdfState)
    (h : artifact_alt_ok st.k) :
    artifact_alt_ok (tag_form_field_step c f st).2.k := by
  simp only [tag_form_field_step]
  rw [link_with_index_k]
  exact artifact_alt_ok_append st.k _ h (fun hA => by simp at hA)

theorem tag_form_fields_go_k :
    ∀ (fs : List FormField) (c : Nat) (st : PdfState), artifact_alt_ok st.k →
      artifact_alt_ok (tag_form_fields_go c fs st).2.k := by
  intro fs
  induction fs with
  | nil => intro c st h; exact h
  | cons f fs ih =>
    intro c st h
    exact ih (c + 1) _ (tag_form_field_step_k c f st h)

theorem tag_form_fields_k (st : PdfState) (h : artifact_alt_ok st.k) :
    artifact_alt_ok (tag_form_fields st).k :=
  tag_form_fields_go_k st.fields 0 st h

theorem tag_annotation_step_k (a : Annot) (st : PdfState)
    (h : artifact_alt_ok st.k) :
    artifact_alt_ok (tag_annotation_step a st).2.k := by
  simp only [tag_annotation_step]
  rw [link_with_index_k]
  exact artifact_alt_ok_append st.k _ h
    (fun hA => absurd hA (annot_struct_type_ne_artifact a.subtype))

theorem tag_annotations_go_k :
    ∀ (annots : List Annot) (st : PdfState), artifact_alt_ok st.k →
      artifact_alt_ok (tag_annotations_go annots st).2.k := by
  intro annots
  induction annots with
  | nil => intro st h; exact h
  | cons a rest ih =>
    intro st h
    simp only [tag_annotations_go]
    split
    · exact ih st h
    · split
      · exact ih _ (tag_annotation_step_k a st h)
      · exact ih st h

theorem tag_annotations_k (st : PdfState) (h : artifact_alt_ok st.k) :
    artifact_alt_ok (tag_annotations st).k :=
  tag_annotations_go_k st.annots st h

theorem mark_unmarked_xobjs_k (images : List ImageInfo) (tagged : List String) (pn : Nat) :
    ∀ (xs : List XObj) (st : PdfState), artifact_alt_ok st.k →
      artifact_alt_ok (mark_unmarked_xobjs images tagged pn xs st).k := by
  intro xs
  induction xs with
  | nil => intro st h; exact h
  | cons x rest ih =>
    intro st h
    simp only [mark_unmarked_xobjs]
    split
    · exact ih st h
    · split
      · split
        · split
          · exact ih st h
          · exact ih st h
        · exact ih _ (artifact_alt_ok_append st.k artifact_elem h (fun _ => rfl))
      · split
        · exact ih _ (artifact_alt_ok_append st.k artifact_elem h (fun _ => rfl))
        · exact ih st h

theorem mark_unmarked_pages_k (images : List ImageInfo) (tagged : List String) :
    ∀ (pages : List Page) (pn : Nat) (st : PdfState), artifact_alt_ok st.k →
      artifact_alt_ok (mark_unmarked_pages images tagged pn pages st).k := by
  intro pages
  induction pages with
  | nil => intro pn st h; exact h
  | cons p ps ih =>
    intro pn st h
    exact ih (pn + 1) _ (mark_unmarked_xobjs_k images tagged pn p.xobjects st h)

theorem mark_unmarked_k (images : List ImageInfo) (st : PdfState)
    (h : artifact_alt_ok st.k) :
    artifact_alt_ok (mark_unmarked_content_as_artifacts images st).k :=
  mark_unmarked_pages_k images _ st.pages 1 st h

/-! ### The builder claims C1, C8, C9 -/

/-- A one-page document whose only content is a single 10×10 image XObject
`Im1` (classified decorative by the 20-pixel rule), with no form fields,
no annotations, and a freshly created empty structure tree. -/
def demo_page : Page :=
  { xobjects := [{ name := "Im1", subtype := "Image", width := 10, height := 10 }] }

/-- The builder's starting state on `demo_page`. -/
def demo_state : PdfState :=
  { pages := [demo_page], fields := [], annots := [], k := [], nums := [] }

/-- C1: `tag_images` has no already-tagged check, so running the builder a
second time over the already-tagged document creates one more structure
node per image and one more ParentTree pair — not zero.  On `demo_state`,
the first run produces 1 node and 1 ParentTree entry; the second run
produces 2 of each. -/
theorem builder_rerun_creates_nodes :
    (remediate_run demo_state).k.length = 1 ∧
    (remediate_run demo_state).nums.length = 1 ∧
    (remediate_run (remediate_run demo_state)).k.length = 2 ∧
    (remediate_run (remediate_run demo_state)).nums.length = 2 :=
  ⟨by decide, by decide, by decide, by decide⟩

/-- C8: starting from a canonical ParentTree (as the builder itself
creates: indices `0..n-1` in order, e.g. the empty one), a full builder
run keeps it canonical, so every allocated index is fresh and strictly
increasing and no index appears twice across the image, form-field and
annotation tagging operations. -/
theorem parent_tree_indices_unique (st : PdfState) (h : nums_canonical st.nums) :
    nums_canonical (remediate_run st).nums ∧
    ((remediate_run st).nums.map Prod.fst).Nodup ∧
    List.Pairwise (· < ·) ((remediate_run st).nums.map Prod.fst) := by
  have hrun : nums_canonical (remediate_run st).nums := by
    unfold remediate_run
    rw [mark_unmarked_nums]
    exact tag_annotations_nums _ (tag_form_fields_nums _ (tag_images_nums st h))
  refine ⟨hrun, ?_, ?_⟩
  · rw [hrun]; exact List.nodup_range _
  · rw [hrun]; exact List.pairwise_lt_range _

/-- Witness for C8 at `demo_state` (its fresh ParentTree is canonical):
after one run the indices are exactly `[0]`, duplicate-free. -/
theorem parent_tree_indices_unique_witness :
    nums_canonical (remediate_run demo_state).nums ∧
    ((remediate_run demo_state).nums.map Prod.fst).Nodup :=
  ⟨(parent_tree_indices_unique demo_state rfl).1,
   (parent_tree_indices_unique demo_state rfl).2.1⟩

/-- C9: every `Artifact`-role structure node created by a full builder run
carries the explicitly empty alt string: if the invariant holds of the
input tree (in particular of the empty tree), it holds of every element
after the run. -/
theorem artifact_nodes_empty_alt (st : PdfState) (e : StructElem)
    (h : artifact_alt_ok st.k) (hmem : e ∈ (remediate_run st).k)
    (ha : e.s = PRole.Artifact) : e.alt = some "" := by
  have hrun : artifact_alt_ok (remediate_run st).k := by
    unfold remediate_run
    exact mark_unmarked_k _ _ (tag_annotations_k _ (tag_form_fields_k _ (tag_images_k st h)))
  exact hrun e hmem ha

/-- Witness for C9: on `demo_state` the run creates the decorative image's
artifact node, and its alt text is the explicit empty string. -/
theorem artifact_nodes_empty_alt_witness :
    artifact_elem ∈ (remediate_run demo_state).k ∧ artifact_elem.alt = some "" :=
  ⟨by decide,
   artifact_nodes_empty_alt demo_state artifact_elem
     (by intro e he ha; simp [demo_state] at he) (by decide) rfl⟩

end PdfRemediator
